import Mathlib

/-!
Shallow embedding of the `esp-leveled-edge` crate (files `src/debounce.rs`
and `src/leveled_edge.rs`).

Timestamps are the ESP-IDF microsecond clock `esp_timer_get_time`, an `i64`;
we model them as `Int` and pass the clock reading `now` explicitly to every
function that calls `micros()` in the source.  `Duration::as_micros()` is a
`u128` that the constructors cast with `as i64`; that wrapping cast is
modelled explicitly by `i64_of_u128`.  Driver calls (`gpio_set_intr_type`,
`gpio_install_isr_service`, `gpio_isr_handler_add`, `gpio_intr_disable`,
`gpio_intr_enable`) act on an explicit hardware state `GpioHw`, and their
status results are supplied as inputs.
-/

/-- ESP-IDF status code `ESP_OK`. -/
def ESP_OK : Int := 0

/-- ESP-IDF status code `ESP_ERR_INVALID_STATE` (0x103). -/
def ESP_ERR_INVALID_STATE : Int := 0x103

/-- Wrapping cast of a Rust `u128` value (modelled as `Nat`) with `as i64`:
keep the low 64 bits and reinterpret as two's-complement signed. -/
def i64_of_u128 (n : Nat) : Int :=
  if n % 2 ^ 64 < 2 ^ 63 then ((n % 2 ^ 64 : Nat) : Int)
  else ((n % 2 ^ 64 : Nat) : Int) - 2 ^ 64

/-- Trait `Debounce` from `src/debounce.rs`: `fn is_isr_valid(&mut self) -> bool`.
The source reads `micros()` internally; the embedding passes the clock reading
`now` explicitly and returns the updated state alongside the boolean. -/
class Debounce (D : Type) where
  is_isr_valid : D → Int → Bool × D

/-- Struct `NoDebounce`: a debouncer that does nothing. -/
inductive NoDebounce
  | mk
deriving DecidableEq

/-- `impl Debounce for NoDebounce`: always returns `true`. -/
instance NoDebounce.instDebounce : Debounce NoDebounce where
  is_isr_valid s _ := (true, s)

/-- Struct `ClassicDebounce`: fields `debounce_time: i64`, `last_sample: i64`. -/
structure ClassicDebounce where
  debounce_time : Int
  last_sample : Int
deriving DecidableEq

/-- `ClassicDebounce::new(debounce_time: Duration)`: stores
`debounce_time.as_micros() as i64` and initialises `last_sample` to the
clock reading `micros()` taken at construction (passed here as `t0`). -/
def ClassicDebounce.new (durationMicros : Nat) (t0 : Int) : ClassicDebounce :=
  { debounce_time := i64_of_u128 durationMicros, last_sample := t0 }

/-- `impl Debounce for ClassicDebounce::is_isr_valid`: reject without
updating `last_sample` when `now - last_sample < debounce_time`, otherwise
set `last_sample = now` and accept. -/
def ClassicDebounce.is_isr_valid (s : ClassicDebounce) (now : Int) :
    Bool × ClassicDebounce :=
  if now - s.last_sample < s.debounce_time then
    (false, s)
  else
    (true, { s with last_sample := now })

instance ClassicDebounce.instDebounce : Debounce ClassicDebounce where
  is_isr_valid := ClassicDebounce.is_isr_valid

/-- Struct `FilterDebounce`: fields `debounce_time: i64`, `last_sample: i64`,
`ignore_next: bool`. -/
structure FilterDebounce where
  debounce_time : Int
  last_sample : Int
  ignore_next : Bool
deriving DecidableEq

/-- `FilterDebounce::new(debounce_time: Duration)`: stores
`debounce_time.as_micros() as i64`, initialises `last_sample` to the
construction-time clock reading `t0` and `ignore_next` to `false`. -/
def FilterDebounce.new (durationMicros : Nat) (t0 : Int) : FilterDebounce :=
  { debounce_time := i64_of_u128 durationMicros, last_sample := t0,
    ignore_next := false }

/-- `impl Debounce for FilterDebounce::is_isr_valid`: when `ignore_next` is
clear, a firing inside the window sets `ignore_next` and is rejected and a
firing outside the window passes; when `ignore_next` is set it is cleared and
the firing is rejected; `last_sample = now` in every branch. -/
def FilterDebounce.is_isr_valid (s : FilterDebounce) (now : Int) :
    Bool × FilterDebounce :=
  if !s.ignore_next then
    if now - s.last_sample < s.debounce_time then
      (false, { s with ignore_next := true, last_sample := now })
    else
      (true, { s with last_sample := now })
  else
    (false, { s with ignore_next := false, last_sample := now })

instance FilterDebounce.instDebounce : Debounce FilterDebounce where
  is_isr_valid := FilterDebounce.is_isr_valid

/-- Run a debouncer over a sequence of clock readings, one `is_isr_valid`
call per reading; returns the list of verdicts and the final state. -/
def runDebounce {D : Type} [Debounce D] (s : D) : List Int → List Bool × D
  | [] => ([], s)
  | now :: rest =>
    let r := Debounce.is_isr_valid s now
    let q := runDebounce r.2 rest
    (r.1 :: q.1, q.2)

/-- The clock is monotone along a list of readings, starting no earlier
than `t0` (models the monotonicity of `esp_timer_get_time`). -/
def monoFrom (t0 : Int) : List Int → Bool
  | [] => true
  | n :: rest => decide (t0 ≤ n) && monoFrom n rest

/-- Enum `esp_idf_hal::gpio::InterruptType`, restricted to the two variants
the crate uses: level-low and level-high triggers. -/
inductive InterruptType
  | LowLevel
  | HighLevel
deriving DecidableEq

/-- State of the GPIO peripheral for the one pin the controller owns:
the currently armed trigger condition, whether the pin's interrupt is
enabled, and whether an ISR handler is registered for the pin. -/
structure GpioHw where
  armed : InterruptType
  intr_enabled : Bool
  handler_installed : Bool
deriving DecidableEq

/-- Driver call `gpio_intr_disable(pin)`. -/
def gpio_intr_disable (hw : GpioHw) : GpioHw :=
  { hw with intr_enabled := false }

/-- Driver call `gpio_intr_enable(pin)`. -/
def gpio_intr_enable (hw : GpioHw) : GpioHw :=
  { hw with intr_enabled := true }

/-- Driver call `gpio_set_intr_type(pin, t)`, on success. -/
def gpio_set_intr_type (hw : GpioHw) (t : InterruptType) : GpioHw :=
  { hw with armed := t }

/-- Driver call `gpio_isr_handler_add(pin, handler, ctx)`, on success. -/
def gpio_isr_handler_add (hw : GpioHw) : GpioHw :=
  { hw with handler_installed := true }

/-- Observable actions the controller performs, in order: driver calls on the
pin and invocations of the user callback (with the level argument passed). -/
inductive GpioAction
  | intr_disable (pin : Int)
  | callback (level : Bool)
  | set_intr_type (pin : Int) (t : InterruptType)
  | intr_enable (pin : Int)
  | install_isr_service
  | isr_handler_add (pin : Int)
deriving DecidableEq

/-- Struct `LeveledEdge` from `src/leveled_edge.rs`: the owned GPIO handle
(modelled by its pin number), the remembered pin level `pin_state`, and the
debounce strategy instance.  The callback (a raw `*mut Func`) is not a field
here; its invocations are recorded in the action trace instead. -/
structure LeveledEdge (D : Type) where
  pin : Int
  pin_state : Bool
  debouncer : D
deriving DecidableEq

/-- The `match self.pin_state { true => LowLevel, false => HighLevel }`
expression that picks the trigger opposite the remembered level, duplicated
verbatim in `install_isr` and `toggle_interrupt_trigger`. -/
def next_intr_for (pin_state : Bool) : InterruptType :=
  if pin_state then InterruptType.LowLevel else InterruptType.HighLevel

/-- Status results returned by the three fallible driver calls made during
installation, supplied as inputs to the embedding. -/
structure DriverResults where
  set_intr_type_res : Int
  install_isr_service_res : Int
  isr_handler_add_res : Int
deriving DecidableEq

/-- Method `LeveledEdge::install_isr`: program the initial trigger to the
level opposite `pin_state` (propagating a driver error), call
`gpio_install_isr_service(0)` accepting `ESP_OK` or `ESP_ERR_INVALID_STATE`,
then `gpio_isr_handler_add` (propagating a driver error).  Returns the
updated hardware state on success or the failing status code, together with
the trace of driver calls attempted. -/
def LeveledEdge.install_isr {D : Type} (this : LeveledEdge D) (hw : GpioHw)
    (r : DriverResults) : Except Int GpioHw × List GpioAction :=
  let next_intr := next_intr_for this.pin_state
  let tr1 := [GpioAction.set_intr_type this.pin next_intr]
  if r.set_intr_type_res = ESP_OK then
    let hw1 := gpio_set_intr_type hw next_intr
    let tr2 := tr1 ++ [GpioAction.install_isr_service]
    if r.install_isr_service_res = ESP_OK ∨
        r.install_isr_service_res = ESP_ERR_INVALID_STATE then
      let tr3 := tr2 ++ [GpioAction.isr_handler_add this.pin]
      if r.isr_handler_add_res = ESP_OK then
        (Except.ok (gpio_isr_handler_add hw1), tr3)
      else
        (Except.error r.isr_handler_add_res, tr3)
    else
      (Except.error r.install_isr_service_res, tr2)
  else
    (Except.error r.set_intr_type_res, tr1)

/-- Constructor `LeveledEdge::new`: reads the pin level once (`gpio.is_high()`,
passed here as `level`), builds the controller, runs `install_isr` and
propagates its error, otherwise returns the controller. -/
def LeveledEdge.new {D : Type} (pin : Int) (level : Bool) (debouncer : D)
    (hw : GpioHw) (r : DriverResults) :
    Except Int (LeveledEdge D × GpioHw) :=
  let this : LeveledEdge D := { pin := pin, pin_state := level, debouncer := debouncer }
  match (this.install_isr hw r).1 with
  | Except.ok hw1 => Except.ok (this, hw1)
  | Except.error e => Except.error e

/-- Method `LeveledEdge::toggle_interrupt_trigger`: computes the next trigger
from `pin_state` (`true ⇒ LowLevel`, `false ⇒ HighLevel`) and calls
`gpio_set_intr_type`; any status other than `ESP_OK` panics.  The driver's
status is the input `res`; the boolean is `true` when the call succeeded and
`false` when the source panics. -/
def LeveledEdge.toggle_interrupt_trigger {D : Type} (this : LeveledEdge D)
    (res : Int) : InterruptType × Bool :=
  let next_intr := next_intr_for this.pin_state
  (next_intr, decide (res = ESP_OK))

/-- Interrupt handler `LeveledEdge::irq_handler`: disable the pin's
interrupt, flip `pin_state` (never read from hardware — the handler takes no
pin-level input at all), run the debouncer, invoke the callback with the new
`pin_state` when the firing is valid, toggle the trigger, re-enable the
interrupt.  `now` is the clock reading the debouncer observes and `res` is
the driver status of the `gpio_set_intr_type` call inside
`toggle_interrupt_trigger`; when that call fails the source panics, modelled
by the `none` result (the trace still records the actions performed up to
the panic). -/
def LeveledEdge.irq_handler {D : Type} [Debounce D] (this : LeveledEdge D)
    (hw : GpioHw) (now : Int) (res : Int) :
    Option (LeveledEdge D × GpioHw) × List GpioAction :=
  let hw1 := gpio_intr_disable hw
  let d := Debounce.is_isr_valid this.debouncer now
  let this1 : LeveledEdge D :=
    { this with pin_state := !this.pin_state, debouncer := d.2 }
  let tr1 := [GpioAction.intr_disable this.pin] ++
    (if d.1 then [GpioAction.callback this1.pin_state] else [])
  let t := this1.toggle_interrupt_trigger res
  let tr2 := tr1 ++ [GpioAction.set_intr_type this.pin t.1]
  if t.2 then
    (some (this1, gpio_intr_enable (gpio_set_intr_type hw1 t.1)),
      tr2 ++ [GpioAction.intr_enable this.pin])
  else
    (none, tr2)

/-- Drop glue of `LeveledEdge`: the source declares no `Drop` impl, so
dropping the controller runs only the derived field drops and performs no
GPIO driver call — the hardware state is untouched (the raw callback
pointer is additionally leaked). -/
def LeveledEdge.drop_actions : List GpioAction := []

/-- Effect of dropping a `LeveledEdge` on the GPIO hardware state: none,
since the source declares no `Drop` impl. -/
def LeveledEdge.drop_hw (hw : GpioHw) : GpioHw := hw

/-- Run the interrupt handler once per clock reading, each reprogramming
succeeding (`ESP_OK`); returns the final controller and hardware state and
the per-firing debounce verdicts. -/
def runHandlers {D : Type} [Debounce D] (this : LeveledEdge D) (hw : GpioHw) :
    List Int → Option (LeveledEdge D × GpioHw × List Bool)
  | [] => some (this, hw, [])
  | now :: rest =>
    match (this.irq_handler hw now ESP_OK).1 with
    | some p =>
      (runHandlers p.1 p.2 rest).map
        (fun trip =>
          (trip.1, trip.2.1, (Debounce.is_isr_valid this.debouncer now).1 :: trip.2.2))
    | none => none

/-- Helper: the `as i64` cast is the identity on values below `2 ^ 63`. -/
theorem i64_of_u128_small (n : Nat) (h : n < 2 ^ 63) : i64_of_u128 n = (n : Int) := by
  have h1 : n % 2 ^ 64 = n := Nat.mod_eq_of_lt (lt_trans h (by norm_num))
  simp only [i64_of_u128, h1, if_pos h]

/-- C3: a classic-window validity check inside the window
(`now - last_sample < debounce_time`) returns `false` and leaves the state —
in particular `last_sample` — unchanged; outside the window it sets
`last_sample` to `now` and returns `true`. -/
theorem classic_window_check_spec (s : ClassicDebounce) (now : Int) :
    (now - s.last_sample < s.debounce_time →
      s.is_isr_valid now = (false, s)) ∧
    (¬ (now - s.last_sample < s.debounce_time) →
      s.is_isr_valid now = (true, { s with last_sample := now })) := by
  constructor <;> intro h <;> simp [ClassicDebounce.is_isr_valid, h]

/-- Witness for C3: a concrete in-window call rejects without moving
`last_sample`, a concrete out-of-window call accepts and moves it. -/
theorem classic_window_check_spec_witness :
    ClassicDebounce.is_isr_valid ⟨10, 0⟩ 5 = (false, ⟨10, 0⟩) ∧
    ClassicDebounce.is_isr_valid ⟨10, 0⟩ 12 = (true, ⟨10, 12⟩) :=
  ⟨(classic_window_check_spec ⟨10, 0⟩ 5).1 (by decide),
   (classic_window_check_spec ⟨10, 0⟩ 12).2 (by decide)⟩

/-- C4: a filtered-window validity check with `ignore_next` set clears the
flag and rejects regardless of timing; with the flag clear, an in-window call
sets the flag and rejects, an out-of-window call accepts; `last_sample` is
set to `now` in all three branches. -/
theorem filter_window_check_spec (s : FilterDebounce) (now : Int) :
    (s.ignore_next = true →
      s.is_isr_valid now =
        (false, { s with ignore_next := false, last_sample := now })) ∧
    (s.ignore_next = false → now - s.last_sample < s.debounce_time →
      s.is_isr_valid now =
        (false, { s with ignore_next := true, last_sample := now })) ∧
    (s.ignore_next = false → ¬ (now - s.last_sample < s.debounce_time) →
      s.is_isr_valid now = (true, { s with last_sample := now })) := by
  refine ⟨fun h => ?_, fun h h2 => ?_, fun h h2 => ?_⟩
  · simp [FilterDebounce.is_isr_valid, h]
  · simp [FilterDebounce.is_isr_valid, h, h2]
  · simp [FilterDebounce.is_isr_valid, h, h2]

/-- Witness for C4: the three branches at concrete states and times. -/
theorem filter_window_check_spec_witness :
    FilterDebounce.is_isr_valid ⟨10, 0, true⟩ 100 = (false, ⟨10, 100, false⟩) ∧
    FilterDebounce.is_isr_valid ⟨10, 0, false⟩ 5 = (false, ⟨10, 5, true⟩) ∧
    FilterDebounce.is_isr_valid ⟨10, 0, false⟩ 12 = (true, ⟨10, 12, false⟩) :=
  ⟨(filter_window_check_spec ⟨10, 0, true⟩ 100).1 rfl,
   (filter_window_check_spec ⟨10, 0, false⟩ 5).2.1 rfl (by decide),
   (filter_window_check_spec ⟨10, 0, false⟩ 12).2.2 rfl (by decide)⟩

/-- Counterexample to C10 as stated: for the positive debounce duration of
`2 ^ 63` microseconds, the `as i64` cast in `ClassicDebounce::new` wraps the
window to a negative value, and the first validity check — taken under a
monotone clock, strictly less than the duration after construction — returns
`true` instead of the claimed `false`. -/
theorem debounce_new_within_window_counterexample :
    0 < 2 ^ 63 ∧ (0 : Int) ≤ 5 ∧ (5 : Int) - 0 < ((2 ^ 63 : Nat) : Int) ∧
    ((ClassicDebounce.new (2 ^ 63) 0).is_isr_valid 5).1 = true := by
  refine ⟨by norm_num, by norm_num, by norm_num, by decide⟩

/-- C10 (amended with the duration fitting in `i64`): both windowed
debouncers initialise `last_sample` to the construction-time clock reading,
so for a positive duration of `n < 2 ^ 63` microseconds, a first check under
a monotone clock strictly less than `n` microseconds after construction is
rejected by both. -/
theorem debounce_new_within_window_rejected (n : Nat) (t0 now : Int)
    (hpos : 0 < n) (hfit : n < 2 ^ 63) (hmono : t0 ≤ now)
    (hwin : now - t0 < (n : Int)) :
    (ClassicDebounce.new n t0).last_sample = t0 ∧
    (FilterDebounce.new n t0).last_sample = t0 ∧
    ((ClassicDebounce.new n t0).is_isr_valid now).1 = false ∧
    ((FilterDebounce.new n t0).is_isr_valid now).1 = false := by
  refine ⟨rfl, rfl, ?_, ?_⟩ <;>
    simp [ClassicDebounce.new, FilterDebounce.new, ClassicDebounce.is_isr_valid,
      FilterDebounce.is_isr_valid, i64_of_u128_small n hfit, hwin]

/-- Witness for the amended C10 at duration 10 µs, construction at t=0 and a
first firing at t=5. -/
theorem debounce_new_within_window_rejected_witness :
    (ClassicDebounce.new 10 0).last_sample = 0 ∧
    (FilterDebounce.new 10 0).last_sample = 0 ∧
    ((ClassicDebounce.new 10 0).is_isr_valid 5).1 = false ∧
    ((FilterDebounce.new 10 0).is_isr_valid 5).1 = false :=
  debounce_new_within_window_rejected 10 0 5 (by decide) (by norm_num)
    (by decide) (by decide)

/-- Helper: the disabled strategy accepts every firing. -/
theorem runDebounce_noDebounce (s : NoDebounce) (nows : List Int) :
    (runDebounce s nows).1 = List.replicate nows.length true := by
  induction nows generalizing s with
  | nil => simp [runDebounce]
  | cons n rest ih =>
    simp [runDebounce, Debounce.is_isr_valid, ih, List.replicate_succ]

/-- Helper: a classic-window debouncer with a zero window accepts every
firing of a monotone clock sequence. -/
theorem runDebounce_classic_zero (t0 : Int) (nows : List Int)
    (h : monoFrom t0 nows = true) :
    (runDebounce (⟨0, t0⟩ : ClassicDebounce) nows).1
      = List.replicate nows.length true := by
  induction nows generalizing t0 with
  | nil => simp [runDebounce]
  | cons n rest ih =>
    simp only [monoFrom, Bool.and_eq_true, decide_eq_true_eq] at h
    obtain ⟨h1, h2⟩ := h
    have hlt : ¬ (n - t0 < 0) := by omega
    have hstep : ClassicDebounce.is_isr_valid ⟨0, t0⟩ n = (true, ⟨0, n⟩) := by
      simp [ClassicDebounce.is_isr_valid, hlt]
    simp [runDebounce, Debounce.is_isr_valid, hstep, ih n h2, List.replicate_succ]

/-- Helper: a filtered-window debouncer with a zero window and a clear
`ignore_next` flag accepts every firing of a monotone clock sequence. -/
theorem runDebounce_filter_zero (t0 : Int) (nows : List Int)
    (h : monoFrom t0 nows = true) :
    (runDebounce (⟨0, t0, false⟩ : FilterDebounce) nows).1
      = List.replicate nows.length true := by
  induction nows generalizing t0 with
  | nil => simp [runDebounce]
  | cons n rest ih =>
    simp only [monoFrom, Bool.and_eq_true, decide_eq_true_eq] at h
    obtain ⟨h1, h2⟩ := h
    have hlt : ¬ (n - t0 < 0) := by omega
    have hstep : FilterDebounce.is_isr_valid ⟨0, t0, false⟩ n = (true, ⟨0, n, false⟩) := by
      simp [FilterDebounce.is_isr_valid, hlt]
    simp [runDebounce, Debounce.is_isr_valid, hstep, ih n h2, List.replicate_succ]

/-- C5: constructed with a zero debounce duration, both the classic-window
and the filtered-window strategy give the same verdicts as the disabled
strategy on every monotone clock sequence, namely `true` on every call. -/
theorem zero_duration_equals_disabled (t0 : Int) (nows : List Int)
    (h : monoFrom t0 nows = true) :
    (runDebounce (ClassicDebounce.new 0 t0) nows).1
      = (runDebounce NoDebounce.mk nows).1 ∧
    (runDebounce (FilterDebounce.new 0 t0) nows).1
      = (runDebounce NoDebounce.mk nows).1 ∧
    (runDebounce NoDebounce.mk nows).1 = List.replicate nows.length true := by
  have hc : ClassicDebounce.new 0 t0 = ⟨0, t0⟩ := rfl
  have hf : FilterDebounce.new 0 t0 = ⟨0, t0, false⟩ := rfl
  refine ⟨?_, ?_, runDebounce_noDebounce NoDebounce.mk nows⟩
  · rw [hc, runDebounce_classic_zero t0 nows h, runDebounce_noDebounce]
  · rw [hf, runDebounce_filter_zero t0 nows h, runDebounce_noDebounce]

/-- Witness for C5 on the concrete monotone sequence 3, 5, 5, 100 from t=0. -/
theorem zero_duration_equals_disabled_witness :
    monoFrom 0 [3, 5, 5, 100] = true ∧
    (runDebounce (ClassicDebounce.new 0 0) [3, 5, 5, 100]).1
      = (runDebounce NoDebounce.mk [3, 5, 5, 100]).1 ∧
    (runDebounce (FilterDebounce.new 0 0) [3, 5, 5, 100]).1
      = (runDebounce NoDebounce.mk [3, 5, 5, 100]).1 ∧
    (runDebounce NoDebounce.mk [3, 5, 5, 100]).1 = List.replicate 4 true :=
  ⟨by decide, zero_duration_equals_disabled 0 [3, 5, 5, 100] (by decide)⟩

/-- Helper: closed-form evaluation of one handler invocation when the
trigger reprogramming succeeds. -/
theorem irq_handler_ok {D : Type} [Debounce D] (this : LeveledEdge D)
    (hw : GpioHw) (now : Int) :
    this.irq_handler hw now ESP_OK =
      (some ({ this with
                 pin_state := !this.pin_state,
                 debouncer := (Debounce.is_isr_valid this.debouncer now).2 },
             { armed := next_intr_for (!this.pin_state),
               intr_enabled := true,
               handler_installed := hw.handler_installed }),
       [GpioAction.intr_disable this.pin] ++
         (if (Debounce.is_isr_valid this.debouncer now).1 then
            [GpioAction.callback (!this.pin_state)] else []) ++
         [GpioAction.set_intr_type this.pin (next_intr_for (!this.pin_state)),
          GpioAction.intr_enable this.pin]) := by
  simp [LeveledEdge.irq_handler, LeveledEdge.toggle_interrupt_trigger,
    gpio_intr_disable, gpio_intr_enable, gpio_set_intr_type]

/-- C1: on a raw firing whose trigger reprogramming succeeds, the handler
performs exactly the sequence: disable the pin's interrupt, flip the
remembered level (computed purely from the stored `pin_state`, no hardware
level is read — the handler takes no level input), consult the debounce
strategy at the current clock reading, invoke the callback with the new
level exactly when the strategy answered valid, program the trigger to the
level opposite the new remembered level, re-enable the interrupt. -/
theorem irq_handler_sequence {D : Type} [Debounce D] (this : LeveledEdge D)
    (hw : GpioHw) (now res : Int) (h : res = ESP_OK) :
    this.irq_handler hw now res =
      (some ({ this with
                 pin_state := !this.pin_state,
                 debouncer := (Debounce.is_isr_valid this.debouncer now).2 },
             { armed := next_intr_for (!this.pin_state),
               intr_enabled := true,
               handler_installed := hw.handler_installed }),
       [GpioAction.intr_disable this.pin] ++
         (if (Debounce.is_isr_valid this.debouncer now).1 then
            [GpioAction.callback (!this.pin_state)] else []) ++
         [GpioAction.set_intr_type this.pin (next_intr_for (!this.pin_state)),
          GpioAction.intr_enable this.pin]) := by
  subst h
  exact irq_handler_ok this hw now

/-- Witness for C1: a concrete valid firing on pin 4 with remembered level
low produces exactly disable, callback with high, re-arm low-level trigger,
enable. -/
theorem irq_handler_sequence_witness :
    (0 : Int) = ESP_OK ∧
    (⟨4, false, NoDebounce.mk⟩ : LeveledEdge NoDebounce).irq_handler
        ⟨InterruptType.HighLevel, true, true⟩ 7 0 =
      (some (⟨4, true, NoDebounce.mk⟩, ⟨InterruptType.LowLevel, true, true⟩),
       [GpioAction.intr_disable 4, GpioAction.callback true,
        GpioAction.set_intr_type 4 InterruptType.LowLevel,
        GpioAction.intr_enable 4]) :=
  ⟨rfl, irq_handler_sequence ⟨4, false, NoDebounce.mk⟩
    ⟨InterruptType.HighLevel, true, true⟩ 7 0 rfl⟩

/-- C8: when the driver rejects the trigger reprogramming inside
`toggle_interrupt_trigger` (status other than `ESP_OK`), the source panics:
the toggle reports the panic and the handler invocation aborts (no state is
returned, no re-enable happens). -/
theorem trigger_reprogram_failure_panics {D : Type} [Debounce D]
    (this : LeveledEdge D) (hw : GpioHw) (now res : Int) (h : res ≠ ESP_OK) :
    (this.toggle_interrupt_trigger res).2 = false ∧
    (this.irq_handler hw now res).1 = none := by
  constructor
  · simp [LeveledEdge.toggle_interrupt_trigger, h]
  · simp [LeveledEdge.irq_handler, LeveledEdge.toggle_interrupt_trigger, h]

/-- Witness for C8 at the concrete failing status 1 (`ESP_FAIL` is -1, any
non-zero status panics; 1 is such a status). -/
theorem trigger_reprogram_failure_panics_witness :
    (1 : Int) ≠ ESP_OK ∧
    ((⟨4, false, NoDebounce.mk⟩ : LeveledEdge NoDebounce).toggle_interrupt_trigger 1).2 = false ∧
    ((⟨4, false, NoDebounce.mk⟩ : LeveledEdge NoDebounce).irq_handler
        ⟨InterruptType.HighLevel, true, true⟩ 7 1).1 = none :=
  ⟨by decide, trigger_reprogram_failure_panics ⟨4, false, NoDebounce.mk⟩
    ⟨InterruptType.HighLevel, true, true⟩ 7 1 (by decide)⟩

/-- Helper: a successful construction returns the controller built from the
level read once at construction, arms the trigger opposite that level, and
leaves the handler registered. -/
theorem new_ok_facts {D : Type} (pin : Int) (level : Bool) (deb : D)
    (hw : GpioHw) (r : DriverResults) (this : LeveledEdge D) (hw0 : GpioHw)
    (h : LeveledEdge.new pin level deb hw r = Except.ok (this, hw0)) :
    this = ⟨pin, level, deb⟩ ∧
    hw0.armed = next_intr_for level ∧
    hw0.intr_enabled = hw.intr_enabled ∧
    hw0.handler_installed = true := by
  unfold LeveledEdge.new LeveledEdge.install_isr at h
  by_cases h1 : r.set_intr_type_res = ESP_OK
  · by_cases h2 : r.install_isr_service_res = ESP_OK ∨
        r.install_isr_service_res = ESP_ERR_INVALID_STATE
    · by_cases h3 : r.isr_handler_add_res = ESP_OK
      · simp only [h1, h2, h3, if_true, if_pos] at h
        simp only [gpio_set_intr_type, gpio_isr_handler_add,
          Except.ok.injEq, Prod.mk.injEq] at h
        obtain ⟨hthis, hhw⟩ := h
        subst hthis
        subst hhw
        exact ⟨rfl, rfl, rfl, rfl⟩
      · simp [h1, h2, h3] at h
    · simp [h1, h2] at h
  · simp [h1] at h

/-- Helper: unfolding one step of a run of handler invocations. -/
theorem runHandlers_cons {D : Type} [Debounce D] (this : LeveledEdge D)
    (hw : GpioHw) (now : Int) (rest : List Int) :
    runHandlers this hw (now :: rest) =
      (runHandlers
          { this with
              pin_state := !this.pin_state,
              debouncer := (Debounce.is_isr_valid this.debouncer now).2 }
          { armed := next_intr_for (!this.pin_state),
            intr_enabled := true,
            handler_installed := hw.handler_installed }
          rest).map
        (fun trip =>
          (trip.1, trip.2.1, (Debounce.is_isr_valid this.debouncer now).1 :: trip.2.2)) := by
  simp only [runHandlers]
  rw [irq_handler_ok]

/-- Helper: negating the starting level mirrors bumping the invocation count
by one in the parity expression. -/
theorem xor_not_parity (a : Bool) (k : Nat) :
    Bool.xor (!a) (decide (k % 2 = 1)) = Bool.xor a (decide ((k + 1) % 2 = 1)) := by
  rcases Nat.mod_two_eq_zero_or_one k with hk | hk
  · have h2 : (k + 1) % 2 = 1 := by omega
    simp [hk, h2]
  · have h2 : (k + 1) % 2 = 0 := by omega
    simp [hk, h2]

/-- Helper: along any run of handler invocations (each with successful
reprogramming) the armed trigger ends complementary to the remembered level
provided it started so, and the final remembered level is the initial one
flipped once per invocation. -/
theorem runHandlers_facts {D : Type} [Debounce D] (nows : List Int) :
    ∀ (this : LeveledEdge D) (hw : GpioHw) (this1 : LeveledEdge D)
      (hw1 : GpioHw) (flags : List Bool),
      runHandlers this hw nows = some (this1, hw1, flags) →
      (hw.armed = next_intr_for this.pin_state →
        hw1.armed = next_intr_for this1.pin_state) ∧
      this1.pin_state = Bool.xor this.pin_state (decide (nows.length % 2 = 1)) := by
  induction nows with
  | nil =>
    intro this hw this1 hw1 flags h
    simp only [runHandlers, Option.some.injEq, Prod.mk.injEq] at h
    obtain ⟨e1, e2, e3⟩ := h
    subst e1
    subst e2
    simp
  | cons now rest ih =>
    intro this hw this1 hw1 flags h
    rw [runHandlers_cons, Option.map_eq_some'] at h
    obtain ⟨⟨thisA, hwA, flagsA⟩, hrec, hmap⟩ := h
    simp only [Prod.mk.injEq] at hmap
    obtain ⟨e1, e2, e3⟩ := hmap
    subst e1
    subst e2
    have hstep := ih _ _ _ _ _ hrec
    refine ⟨fun _ => hstep.1 rfl, ?_⟩
    rw [hstep.2]
    exact xor_not_parity this.pin_state rest.length

/-- C2: after a successful construction the armed trigger is the complement
of the remembered level (level high arms a low-level trigger and vice
versa), and the same holds again after every run of handler invocations,
whether or not the debouncer judged the individual firings valid. -/
theorem armed_trigger_complements_level {D : Type} [Debounce D]
    (pin : Int) (level : Bool) (deb : D) (hw : GpioHw) (r : DriverResults)
    (nows : List Int) (this this1 : LeveledEdge D) (hw0 hw1 : GpioHw)
    (flags : List Bool)
    (hnew : LeveledEdge.new pin level deb hw r = Except.ok (this, hw0))
    (hrun : runHandlers this hw0 nows = some (this1, hw1, flags)) :
    hw0.armed =
      (if this.pin_state then InterruptType.LowLevel else InterruptType.HighLevel) ∧
    hw1.armed =
      (if this1.pin_state then InterruptType.LowLevel else InterruptType.HighLevel) := by
  obtain ⟨hthis, harmed, -, -⟩ := new_ok_facts pin level deb hw r this hw0 hnew
  have h0 : hw0.armed = next_intr_for this.pin_state := by
    rw [harmed, hthis]
  exact ⟨h0, (runHandlers_facts nows this hw0 this1 hw1 flags hrun).1 h0⟩

/-- Witness for C2: construct on pin 4 reading level low (arms high-level
trigger), then one handler invocation (arms low-level trigger for the new
remembered high level). -/
theorem armed_trigger_complements_level_witness :
    LeveledEdge.new 4 false NoDebounce.mk ⟨InterruptType.HighLevel, false, false⟩
        ⟨0, 0x103, 0⟩ =
      Except.ok ((⟨4, false, NoDebounce.mk⟩ : LeveledEdge NoDebounce),
        ⟨InterruptType.HighLevel, false, true⟩) ∧
    runHandlers (⟨4, false, NoDebounce.mk⟩ : LeveledEdge NoDebounce)
        ⟨InterruptType.HighLevel, false, true⟩ [5] =
      some (⟨4, true, NoDebounce.mk⟩, ⟨InterruptType.LowLevel, true, true⟩, [true]) ∧
    (InterruptType.HighLevel =
      if false then InterruptType.LowLevel else InterruptType.HighLevel) ∧
    (InterruptType.LowLevel =
      if true then InterruptType.LowLevel else InterruptType.HighLevel) :=
  ⟨rfl, by decide,
    armed_trigger_complements_level 4 false NoDebounce.mk
      ⟨InterruptType.HighLevel, false, false⟩ ⟨0, 0x103, 0⟩ [5]
      ⟨4, false, NoDebounce.mk⟩ ⟨4, true, NoDebounce.mk⟩
      ⟨InterruptType.HighLevel, false, true⟩ ⟨InterruptType.LowLevel, true, true⟩
      [true] rfl (by decide)⟩

/-- C9: after N consecutive handler invocations all judged valid by the
debounce strategy (and none aborted), the remembered level equals the
initial level XOR (N mod 2 = 1). -/
theorem valid_invocations_parity {D : Type} [Debounce D] (nows : List Int)
    (this this1 : LeveledEdge D) (hw hw1 : GpioHw) (flags : List Bool)
    (hrun : runHandlers this hw nows = some (this1, hw1, flags))
    (hvalid : ∀ b ∈ flags, b = true) :
    this1.pin_state = Bool.xor this.pin_state (decide (nows.length % 2 = 1)) :=
  (runHandlers_facts nows this hw this1 hw1 flags hrun).2

/-- Witness for C9: three valid firings starting from remembered level low
end at remembered level high (3 is odd). -/
theorem valid_invocations_parity_witness :
    runHandlers (⟨4, false, NoDebounce.mk⟩ : LeveledEdge NoDebounce)
        ⟨InterruptType.HighLevel, true, true⟩ [1, 2, 3] =
      some (⟨4, true, NoDebounce.mk⟩, ⟨InterruptType.LowLevel, true, true⟩,
        [true, true, true]) ∧
    (∀ b ∈ [true, true, true], b = true) ∧
    (⟨4, true, NoDebounce.mk⟩ : LeveledEdge NoDebounce).pin_state =
      Bool.xor false (decide (([1, 2, 3] : List Int).length % 2 = 1)) :=
  ⟨by decide, by decide,
    valid_invocations_parity [1, 2, 3] ⟨4, false, NoDebounce.mk⟩
      ⟨4, true, NoDebounce.mk⟩ ⟨InterruptType.HighLevel, true, true⟩
      ⟨InterruptType.LowLevel, true, true⟩ [true, true, true]
      (by decide) (by decide)⟩

/-- C7: installation attempts its three driver sub-steps in order (the
trace is always a prefix of program-trigger, install-service, add-handler);
`ESP_ERR_INVALID_STATE` from the service installation counts as success;
any failing sub-step makes `install_isr` — and hence the constructor
`new` — return that driver status as a typed error, and in every error case
the pin's handler is not registered (the add call either was not reached or
itself failed). -/
theorem install_isr_error_handling {D : Type} (this : LeveledEdge D)
    (hw : GpioHw) (r : DriverResults) :
    List.IsPrefix (this.install_isr hw r).2
      [GpioAction.set_intr_type this.pin (next_intr_for this.pin_state),
       GpioAction.install_isr_service,
       GpioAction.isr_handler_add this.pin] ∧
    (r.set_intr_type_res ≠ ESP_OK →
      (this.install_isr hw r).1 = Except.error r.set_intr_type_res) ∧
    (r.set_intr_type_res = ESP_OK →
     r.install_isr_service_res ≠ ESP_OK →
     r.install_isr_service_res ≠ ESP_ERR_INVALID_STATE →
      (this.install_isr hw r).1 = Except.error r.install_isr_service_res) ∧
    (r.set_intr_type_res = ESP_OK →
     (r.install_isr_service_res = ESP_OK ∨
       r.install_isr_service_res = ESP_ERR_INVALID_STATE) →
     r.isr_handler_add_res ≠ ESP_OK →
      (this.install_isr hw r).1 = Except.error r.isr_handler_add_res) ∧
    (r.set_intr_type_res = ESP_OK →
     r.install_isr_service_res = ESP_ERR_INVALID_STATE →
     r.isr_handler_add_res = ESP_OK →
      ∃ hw1, (this.install_isr hw r).1 = Except.ok hw1 ∧
        hw1.handler_installed = true) ∧
    (∀ e, (this.install_isr hw r).1 = Except.error e →
      LeveledEdge.new this.pin this.pin_state this.debouncer hw r =
          Except.error e ∧
      ¬ (GpioAction.isr_handler_add this.pin ∈ (this.install_isr hw r).2 ∧
          r.isr_handler_add_res = ESP_OK)) := by
  by_cases h1 : r.set_intr_type_res = ESP_OK <;>
  by_cases h2 : r.install_isr_service_res = ESP_OK ∨
      r.install_isr_service_res = ESP_ERR_INVALID_STATE <;>
  by_cases h3 : r.isr_handler_add_res = ESP_OK <;>
  refine ⟨?_, ?_, ?_, ?_, ?_, ?_⟩ <;>
  simp_all [LeveledEdge.install_isr, LeveledEdge.new, gpio_set_intr_type,
    gpio_isr_handler_add, List.IsPrefix]

/-- Witness for C7: with the trigger programming succeeding and the service
installation failing with status 5, installation and construction both
return the typed error 5 and no handler is registered. -/
theorem install_isr_error_handling_witness :
    ((⟨4, false, NoDebounce.mk⟩ : LeveledEdge NoDebounce).install_isr
        ⟨InterruptType.HighLevel, true, false⟩ ⟨0, 5, 3⟩).1 = Except.error 5 ∧
    LeveledEdge.new 4 false NoDebounce.mk
        ⟨InterruptType.HighLevel, true, false⟩ ⟨0, 5, 3⟩ = Except.error 5 ∧
    ¬ (GpioAction.isr_handler_add 4 ∈
        ((⟨4, false, NoDebounce.mk⟩ : LeveledEdge NoDebounce).install_isr
          ⟨InterruptType.HighLevel, true, false⟩ ⟨0, 5, 3⟩).2 ∧
       (3 : Int) = ESP_OK) :=
  have h := install_isr_error_handling
    (⟨4, false, NoDebounce.mk⟩ : LeveledEdge NoDebounce)
    ⟨InterruptType.HighLevel, true, false⟩ ⟨0, 5, 3⟩
  have herr := h.2.2.1 rfl (by decide) (by decide)
  ⟨herr, (h.2.2.2.2.2 5 herr).1, (h.2.2.2.2.2 5 herr).2⟩

/-- C6 (divergence from the claim): the source declares no `Drop` impl for
`LeveledEdge`, so destruction performs no driver call at all — the drop
trace is empty, in particular it contains no interrupt disable and no
handler deregistration for any pin, and the hardware state (armed trigger,
interrupt enable, handler registration) is untouched while the owned state
is freed. -/
theorem drop_performs_no_teardown :
    LeveledEdge.drop_actions = ([] : List GpioAction) ∧
    (∀ pin : Int, GpioAction.intr_disable pin ∉ LeveledEdge.drop_actions) ∧
    (∀ hw : GpioHw, LeveledEdge.drop_hw hw = hw) :=
  ⟨rfl, fun pin h => by simp [LeveledEdge.drop_actions] at h, fun hw => rfl⟩
